import Mathlib

/-!
Shallow embedding of the gilrs gamepad input layer (westymatt/gilrs).

The embedding follows src/src/gamepad.rs (facade, event translation
pipeline, builder, counter, numeric normalization), src/gilrs-core/src/lib.rs
(raw event vocabulary, AxisInfo) and src/src/platform/linux/ff.rs (the
force-feedback device write).  Modules of the repository that are not under
src (ev::state, ev::filter, mapping, utils, ff::server) are modelled from the
specification; every such definition carries a doc comment saying so.

Rust f32 values are embedded as exact rationals, machine integers as Nat/Int
with explicit bounds where overflow matters.  Fallible or panicking Rust code
is embedded with Option / explicit outcome types: a `none` (or `panicked`)
result marks a Rust panic.
-/

/-- Platform-defined identifier of one physical button or axis.  Embeds
gilrs-core EvCode wrapped as Code in gamepad.rs: an opaque newtype over a
platform integer with structural equality. -/
structure Code where
  val : Nat
deriving DecidableEq, Repr

/-- Modelled from the spec: the closed logical button enumeration of the ev
module (not under src), South/East/... plus Unknown. -/
inductive Button where
  | south
  | east
  | north
  | west
  | c
  | z
  | leftTrigger
  | leftTrigger2
  | rightTrigger
  | rightTrigger2
  | select
  | start
  | mode
  | leftThumb
  | rightThumb
  | dpadUp
  | dpadDown
  | dpadLeft
  | dpadRight
  | unknown
deriving DecidableEq, Repr

/-- Modelled from the spec: the closed logical axis enumeration of the ev
module (not under src), LeftStickX/... plus Unknown. -/
inductive Axis where
  | leftStickX
  | leftStickY
  | leftZ
  | rightStickX
  | rightStickY
  | rightZ
  | dpadX
  | dpadY
  | unknown
deriving DecidableEq, Repr

/-- Modelled from the spec: ev::AxisOrBtn, the result of resolving a Code
through a Mapping. -/
inductive AxisOrBtn where
  | btn (b : Button)
  | axis (a : Axis)
deriving DecidableEq, Repr

/-- Embeds gilrs_core::AxisInfo: expected axis range and deadzone. -/
structure AxisInfo where
  min : Int
  max : Int
  deadzone : Nat
deriving DecidableEq, Repr

/-- Modelled from the spec: ev::state::ButtonData
`{is_pressed, value in 0..1, counter (u62), timestamp}` (ev module not under
src). -/
structure ButtonData where
  is_pressed : Bool
  value : ℚ
  counter : Nat
  timestamp : Nat
deriving DecidableEq, Repr

/-- Modelled from the spec: ev::state::AxisData
`{value in -1..1, counter (u62), timestamp}` (ev module not under src). -/
structure AxisData where
  value : ℚ
  counter : Nat
  timestamp : Nat
deriving DecidableEq, Repr

/-- Association-list lookup keyed by Code (executable stand-in for the hash
maps used by the state store and mapping). -/
def alist_get {α : Type} : List (Code × α) → Code → Option α
  | [], _ => none
  | (k, v) :: rest, c => if k = c then some v else alist_get rest c

/-- Association-list insert-or-overwrite keyed by Code. -/
def alist_set {α : Type} : List (Code × α) → Code → α → List (Code × α)
  | [], c, a => [(c, a)]
  | (k, v) :: rest, c, a =>
      if k = c then (c, a) :: rest else (k, v) :: alist_set rest c a

/-- Modelled from the spec: ev::state::GamepadState, a per-device map from
Code to ButtonData or AxisData with disjoint key spaces (ev module not under
src). -/
structure GamepadState where
  buttons : List (Code × ButtonData)
  axes : List (Code × AxisData)
deriving DecidableEq, Repr

/-- Modelled from the spec: GamepadState::new, the empty state. -/
def GamepadState.new : GamepadState := ⟨[], []⟩

/-- Modelled from the spec: GamepadState::is_pressed, a pure lookup that
answers false for a never-observed Code. -/
def GamepadState.is_pressed (s : GamepadState) (c : Code) : Bool :=
  match alist_get s.buttons c with
  | some d => d.is_pressed
  | none => false

/-- Modelled from the spec: GamepadState::value, a pure lookup that answers
0.0 for a never-observed Code. -/
def GamepadState.value (s : GamepadState) (c : Code) : ℚ :=
  match alist_get s.axes c with
  | some d => d.value
  | none => 0

/-- Modelled from the spec: GamepadState::button_data, a pure lookup that
answers None for a never-observed Code. -/
def GamepadState.button_data (s : GamepadState) (c : Code) : Option ButtonData :=
  alist_get s.buttons c

/-- Modelled from the spec: GamepadState::axis_data, a pure lookup that
answers None for a never-observed Code. -/
def GamepadState.axis_data (s : GamepadState) (c : Code) : Option AxisData :=
  alist_get s.axes c

/-- Modelled from the spec: GamepadState::set_btn_pressed applies a
press/release to the ButtonData of the given Code, overwriting counter and
timestamp; an existing value is kept, a fresh entry gets 1.0 or 0.0. -/
def GamepadState.set_btn_pressed (s : GamepadState) (c : Code) (b : Bool)
    (counter time : Nat) : GamepadState :=
  let v : ℚ :=
    match alist_get s.buttons c with
    | some d => d.value
    | none => if b then 1 else 0
  { s with buttons := alist_set s.buttons c ⟨b, v, counter, time⟩ }

/-- Modelled from the spec: GamepadState::set_btn_value overwrites the value,
counter and timestamp of the ButtonData of the given Code, keeping the
pressed flag. -/
def GamepadState.set_btn_value (s : GamepadState) (c : Code) (v : ℚ)
    (counter time : Nat) : GamepadState :=
  let p : Bool :=
    match alist_get s.buttons c with
    | some d => d.is_pressed
    | none => false
  { s with buttons := alist_set s.buttons c ⟨p, v, counter, time⟩ }

/-- Modelled from the spec: GamepadState::set_btn_repeating overwrites the
counter and timestamp of the ButtonData of the given Code. -/
def GamepadState.set_btn_repeating (s : GamepadState) (c : Code)
    (counter time : Nat) : GamepadState :=
  match alist_get s.buttons c with
  | some d =>
      { s with buttons := alist_set s.buttons c ⟨d.is_pressed, d.value, counter, time⟩ }
  | none =>
      { s with buttons := alist_set s.buttons c ⟨false, 0, counter, time⟩ }

/-- Modelled from the spec: GamepadState::update_axis replaces the AxisData
stored for the given Code. -/
def GamepadState.update_axis (s : GamepadState) (c : Code) (d : AxisData) :
    GamepadState :=
  { s with axes := alist_set s.axes c d }

/-- Modelled from the spec: mapping::Mapping (not under src), a per-device
translation table between Codes and logical elements. -/
structure Mapping where
  entries : List (Code × AxisOrBtn)
deriving DecidableEq, Repr

/-- Modelled from the spec: Mapping::map, total lookup Code to
Option AxisOrBtn. -/
def Mapping.map (m : Mapping) (c : Code) : Option AxisOrBtn :=
  alist_get m.entries c

/-- Modelled from the spec: Mapping::map_rev, the partial inverse from a
logical element back to its Code. -/
def Mapping.map_rev (m : Mapping) (aob : AxisOrBtn) : Option Code :=
  (m.entries.find? (fun p => decide (p.2 = aob))).map (fun p => p.1)

/-- Embeds ev::EventType of gamepad.rs: the semantic event vocabulary,
including the Dropped filter sentinel. -/
inductive EventType where
  | buttonPressed (b : Button) (c : Code)
  | buttonReleased (b : Button) (c : Code)
  | buttonRepeated (b : Button) (c : Code)
  | buttonChanged (b : Button) (v : ℚ) (c : Code)
  | axisChanged (a : Axis) (v : ℚ) (c : Code)
  | connected
  | disconnected
  | dropped
deriving DecidableEq, Repr

/-- Embeds ev::Event: gamepad id, timestamp and event kind. -/
structure Event where
  id : Nat
  time : Nat
  event : EventType
deriving DecidableEq, Repr

/-- Modelled from the spec: Event::is_dropped of the ev module (not under
src), true exactly for the Dropped sentinel. -/
def Event.is_dropped (e : Event) : Bool :=
  match e.event with
  | .dropped => true
  | _ => false

/-- Embeds gilrs_core::EventType: the raw event vocabulary delivered by the
platform backend. -/
inductive RawEventType where
  | buttonPressed (c : Code)
  | buttonReleased (c : Code)
  | axisValueChanged (v : Int) (c : Code)
  | connected
  | disconnected
deriving DecidableEq, Repr

/-- Embeds gilrs_core::Event. -/
structure RawEvent where
  id : Nat
  event : RawEventType
  time : Nat
deriving DecidableEq, Repr

/-- Embeds ff::server::Message (ff module not under src, vocabulary from the
spec): commands sent from the facade to the force-feedback scheduler. -/
inductive FfMessage where
  | openDev (id : Nat)
  | close (id : Nat)
  | setListenerPosition (id : Nat)
deriving DecidableEq, Repr

/-- Embeds the slice of gilrs_core::Gamepad the facade reads: the axis
descriptors, force-feedback capability and (modelled from the spec) the
mapping that the database lookup resolves for this device model. -/
structure CoreGamepad where
  axes : List (Code × AxisInfo)
  ffSupported : Bool
  resolvedMapping : Mapping
deriving DecidableEq, Repr

/-- Embeds GamepadData of gamepad.rs: cached state, mapping and id of one
device slot (the Sender half is modelled by message logs on Gilrs). -/
structure GamepadData where
  state : GamepadState
  mapping : Mapping
  id : Nat
deriving DecidableEq, Repr

/-- Embeds GamepadData::new: a freshly (re)built slot with empty state and
the mapping resolved from the database (modelled from the spec, the mapping
module is not under src); sends Open when force feedback is supported. -/
def GamepadData.new (id : Nat) (cg : CoreGamepad) : GamepadData × List FfMessage :=
  (⟨GamepadState.new, cg.resolvedMapping, id⟩,
   if cg.ffSupported then [.openDev id] else [])

/-- Embeds GamepadData::axis_or_btn_name. -/
def GamepadData.axis_or_btn_name (d : GamepadData) (ec : Code) : Option AxisOrBtn :=
  d.mapping.map ec

/-- Embeds GamepadData::button_code. -/
def GamepadData.button_code (d : GamepadData) (btn : Button) : Option Code :=
  d.mapping.map_rev (.btn btn)

/-- Embeds GamepadData::axis_code. -/
def GamepadData.axis_code (d : GamepadData) (axis : Axis) : Option Code :=
  d.mapping.map_rev (.axis axis)

/-- Modelled from the spec: utils::clamp (the utils module is not under src),
clamping a value into the closed range lo..hi. -/
def clamp (val lo hi : ℚ) : ℚ :=
  if val < lo then lo else if val > hi then hi else val

/-- Modelled from the spec: gilrs_core::IS_Y_AXIS_REVERSED, the platform
constant saying whether the backend reports stick Y pointing down (true on
the bundled linux backend). -/
def IS_Y_AXIS_REVERSED : Bool := true

/-- Embeds axis_value of gamepad.rs: linear map of raw [min,max] onto
[-1,1], sign-flipped for stick Y axes when the platform reports Y down,
then clamped. -/
def axis_value (info : AxisInfo) (val : Int) (axis : Axis) : ℚ :=
  let range : ℚ := ((info.max - info.min : Int) : ℚ)
  let v1 : ℚ := ((val - info.min : Int) : ℚ)
  let v2 : ℚ := v1 / range * 2 - 1
  let v3 : ℚ :=
    if IS_Y_AXIS_REVERSED = true ∧ (axis = Axis.leftStickY ∨ axis = Axis.rightStickY)
    then -v2 else v2
  clamp v3 (-1) 1

/-- Embeds btn_value of gamepad.rs: linear map of raw [min,max] onto [0,1],
clamped. -/
def btn_value (info : AxisInfo) (val : Int) : ℚ :=
  let range : ℚ := ((info.max - info.min : Int) : ℚ)
  let v1 : ℚ := ((val - info.min : Int) : ℚ)
  clamp (v1 / range) 0 1

/-- Embeds the Gilrs struct of gamepad.rs.  The platform backend's pending
raw events are modelled as the list rawEvents (front = oldest); messages
logs everything sent on the ff channel; innerGamepads embeds the
gilrs_core::Gilrs gamepad table, which the facade never rebuilds. -/
structure Gilrs where
  innerGamepads : List CoreGamepad
  rawEvents : List RawEvent
  next_id : Nat
  counter : Nat
  default_filters : Bool
  events : List Event
  axis_to_btn_pressed : ℚ
  axis_to_btn_released : ℚ
  update_state : Bool
  gamepads_data : List GamepadData
  messages : List FfMessage
deriving DecidableEq, Repr

/-- Embeds Gilrs::next_event_priv of gamepad.rs: drain the internal queue
first, otherwise pull one raw event and translate it.  The outer Option
marks a Rust panic (the unwraps on a missing gamepad slot or missing axis
descriptor, and the out-of-range indexing in the Disconnected arm); a normal
return is some (returned event, updated state). -/
def Gilrs.next_event_priv (g : Gilrs) : Option (Option Event × Gilrs) :=
  match g.events with
  | ev :: rest => some (some ev, { g with events := rest })
  | [] =>
    match g.rawEvents with
    | [] => some (none, g)
    | ⟨id, revent, time⟩ :: raws =>
      let g1 : Gilrs := { g with rawEvents := raws }
      match revent with
      | .buttonPressed nec =>
        match g1.gamepads_data[id]? with
        | none => none
        | some gd =>
          match gd.axis_or_btn_name nec with
          | some (.btn b) =>
            some (some ⟨id, time, .buttonPressed b nec⟩,
              { g1 with events := g1.events ++ [⟨id, time, .buttonChanged b 1 nec⟩] })
          | some (.axis a) => some (some ⟨id, time, .axisChanged a 1 nec⟩, g1)
          | none =>
            some (some ⟨id, time, .buttonPressed .unknown nec⟩,
              { g1 with events := g1.events ++ [⟨id, time, .buttonChanged .unknown 1 nec⟩] })
      | .buttonReleased nec =>
        match g1.gamepads_data[id]? with
        | none => none
        | some gd =>
          match gd.axis_or_btn_name nec with
          | some (.btn b) =>
            some (some ⟨id, time, .buttonReleased b nec⟩,
              { g1 with events := g1.events ++ [⟨id, time, .buttonChanged b 0 nec⟩] })
          | some (.axis a) => some (some ⟨id, time, .axisChanged a 0 nec⟩, g1)
          | none =>
            some (some ⟨id, time, .buttonReleased .unknown nec⟩,
              { g1 with events := g1.events ++ [⟨id, time, .buttonChanged .unknown 0 nec⟩] })
      | .axisValueChanged rawVal nec =>
        match g1.gamepads_data[id]? with
        | none => none
        | some gd =>
          match g1.innerGamepads[id]? with
          | none => none
          | some cg =>
            match alist_get cg.axes nec with
            | none => none
            | some info =>
              match gd.axis_or_btn_name nec with
              | some (.btn b) =>
                let val := btn_value info rawVal
                if g1.axis_to_btn_pressed ≤ val ∧ gd.state.is_pressed nec = false then
                  some (some ⟨id, time, .buttonPressed b nec⟩,
                    { g1 with events := g1.events ++ [⟨id, time, .buttonChanged b val nec⟩] })
                else if val ≤ g1.axis_to_btn_released ∧ gd.state.is_pressed nec = true then
                  some (some ⟨id, time, .buttonReleased b nec⟩,
                    { g1 with events := g1.events ++ [⟨id, time, .buttonChanged b val nec⟩] })
                else
                  some (some ⟨id, time, .buttonChanged b val nec⟩, g1)
              | some (.axis a) =>
                some (some ⟨id, time, .axisChanged a (axis_value info rawVal a) nec⟩, g1)
              | none =>
                some (some ⟨id, time, .axisChanged .unknown (axis_value info rawVal .unknown) nec⟩, g1)
      | .connected =>
        if id = g1.gamepads_data.length then
          match g1.innerGamepads[id]? with
          | none => none
          | some cg =>
            let p := GamepadData.new id cg
            some (some ⟨id, time, .connected⟩,
              { g1 with gamepads_data := g1.gamepads_data ++ [p.1],
                        messages := g1.messages ++ p.2 })
        else if id < g1.gamepads_data.length then
          match g1.innerGamepads[id]? with
          | none => none
          | some cg =>
            let p := GamepadData.new id cg
            some (some ⟨id, time, .connected⟩,
              { g1 with gamepads_data := g1.gamepads_data.set id p.1,
                        messages := g1.messages ++ p.2 })
        else
          some (some ⟨id, time, .connected⟩, g1)
      | .disconnected =>
        if id < g1.gamepads_data.length then
          some (some ⟨id, time, .disconnected⟩,
            { g1 with messages := g1.messages ++ [.close id] })
        else none

/-- Embeds Gilrs::update of gamepad.rs: applies the event's effect to the
cached state of the slot named by the event id; returns unchanged when the
id has no slot; Connected, Disconnected and Dropped leave the state alone. -/
def Gilrs.update (g : Gilrs) (event : Event) : Gilrs :=
  let counter := g.counter
  match g.gamepads_data[event.id]? with
  | none => g
  | some data =>
    let st : GamepadState :=
      match event.event with
      | .buttonPressed _ nec => data.state.set_btn_pressed nec true counter event.time
      | .buttonReleased _ nec => data.state.set_btn_pressed nec false counter event.time
      | .buttonRepeated _ nec => data.state.set_btn_repeating nec counter event.time
      | .buttonChanged _ value nec => data.state.set_btn_value nec value counter event.time
      | .axisChanged _ value nec => data.state.update_axis nec ⟨value, counter, event.time⟩
      | .disconnected | .connected | .dropped => data.state
    { g with gamepads_data := g.gamepads_data.set event.id { data with state := st } }

/-- Modelled from the spec: a pipeline filter of ev::filter (not under src);
it may rewrite the optional event and mutate the pipeline. -/
def FilterFn : Type := Option Event → Gilrs → Option Event × Gilrs

/-- One iteration body of the default-filter loop in Gilrs::next_event:
next_event_priv followed by the filter chain, abstract in the filters. -/
def Gilrs.next_event_filtered (g : Gilrs) (fs : List FilterFn) :
    Option (Option Event × Gilrs) :=
  (g.next_event_priv).map
    (fun p => fs.foldl (fun (q : Option Event × Gilrs) f => f q.1 q.2) p)

/-- Embeds the default-filter loop of Gilrs::next_event: repeat until the
filtered event is not the Dropped sentinel.  fuel bounds the number of loop
iterations in the embedding (the Rust loop has no such bound); exhausted
fuel and Rust panics both surface as none. -/
def Gilrs.next_event_loop (fs : List FilterFn) :
    Nat → Gilrs → Option (Option Event × Gilrs)
  | 0, _ => none
  | fuel + 1, g =>
    match g.next_event_filtered fs with
    | none => none
    | some (ev, g2) =>
      match ev with
      | some e =>
        if e.is_dropped then Gilrs.next_event_loop fs fuel g2 else some (some e, g2)
      | none => some (none, g2)

/-- Embeds Gilrs::next_event of gamepad.rs: with default filters the
skip-dropped loop runs over the filter chain, otherwise next_event_priv is
returned directly; when update_state is set the returned event is applied to
the cached state. -/
def Gilrs.next_event (g : Gilrs) (fs : List FilterFn) (fuel : Nat) :
    Option (Option Event × Gilrs) :=
  let r :=
    if g.default_filters then Gilrs.next_event_loop fs fuel g
    else g.next_event_priv
  match r with
  | none => none
  | some (ev, g2) =>
    match ev with
    | some e => some (some e, if g2.update_state then g2.update e else g2)
    | none => some (none, g2)

/-- Embeds Gilrs::insert_event: push ev at the back of the internal queue. -/
def Gilrs.insert_event (g : Gilrs) (ev : Event) : Gilrs :=
  { g with events := g.events ++ [ev] }

/-- Embeds Gilrs::inc of gamepad.rs: the 62-bit counter wraps to 0 one step
past 0x3FFF_FFFF_FFFF_FFFF. -/
def Gilrs.inc (g : Gilrs) : Gilrs :=
  if g.counter = 0x3FFFFFFFFFFFFFFF then { g with counter := 0 }
  else { g with counter := g.counter + 1 }

/-- Embeds Gilrs::reset_counter. -/
def Gilrs.reset_counter (g : Gilrs) : Gilrs :=
  { g with counter := 0 }

/-- usize::MAX on the 64-bit targets the crate supports. -/
def USIZE_MAX : Nat := 2 ^ 64 - 1

/-- Embeds usize::checked_add for the single increment used by next_ff_id. -/
def checked_add_one (a : Nat) : Option Nat :=
  if a + 1 ≤ USIZE_MAX then some (a + 1) else none

/-- Embeds Gilrs::next_ff_id of gamepad.rs: hand out next_id and advance it
with checked_add; none marks the panic taken when the increment would
overflow. -/
def Gilrs.next_ff_id (g : Gilrs) : Option (Nat × Gilrs) :=
  let id := g.next_id
  match checked_add_one g.next_id with
  | some x => some (id, { g with next_id := x })
  | none => none

/-- Iterates next_ff_id n times, collecting the returned ids; none when any
call panics. -/
def Gilrs.next_ff_id_run (g : Gilrs) : Nat → Option (List Nat × Gilrs)
  | 0 => some ([], g)
  | n + 1 =>
    match g.next_ff_id with
    | none => none
    | some (i, g2) =>
      match g2.next_ff_id_run n with
      | none => none
      | some (ids, g3) => some (i :: ids, g3)

/-- Embeds the observable state of gilrs_core::Gilrs: the gamepad table and
the pending raw event queue of the platform backend. -/
structure CoreGilrs where
  gamepads : List CoreGamepad
  rawEvents : List RawEvent
deriving DecidableEq, Repr

/-- Embeds GilrsBuilder of gamepad.rs (the mapping database itself is out of
scope for the claims; the env/included flags are kept for shape). -/
structure GilrsBuilder where
  default_filters : Bool
  axis_to_btn_pressed : ℚ
  axis_to_btn_released : ℚ
  update_state : Bool
  env_mappings : Bool
  included_mappings : Bool
deriving DecidableEq, Repr

/-- Embeds GilrsBuilder::new with its default thresholds 0.75 and 0.65. -/
def GilrsBuilder.new : GilrsBuilder :=
  ⟨true, 3 / 4, 13 / 20, true, true, true⟩

/-- Embeds GilrsBuilder::set_axis_to_btn. -/
def GilrsBuilder.set_axis_to_btn (b : GilrsBuilder) (pressed released : ℚ) :
    GilrsBuilder :=
  { b with axis_to_btn_pressed := pressed, axis_to_btn_released := released }

/-- Embeds GilrsBuilder::with_default_filters. -/
def GilrsBuilder.with_default_filters (b : GilrsBuilder) (f : Bool) : GilrsBuilder :=
  { b with default_filters := f }

/-- Embeds GilrsBuilder::set_update_state. -/
def GilrsBuilder.set_update_state (b : GilrsBuilder) (e : Bool) : GilrsBuilder :=
  { b with update_state := e }

/-- Embeds the outcome of gilrs_core::Gilrs::new consumed by build:
a working backend, the dummy NotImplemented backend, or a platform error. -/
inductive PlatformInitResult where
  | ok (inner : CoreGilrs)
  | notImplemented (inner : CoreGilrs)
  | other
deriving DecidableEq, Repr

/-- Embeds Gilrs::finish_gamepads_creation: one GamepadData per backend slot
(ids 0 .. last_gamepad_hint - 1), collecting the Open messages sent for
force-feedback devices. -/
def finish_gamepads_creation (inner : List CoreGamepad) :
    List GamepadData × List FfMessage :=
  inner.enum.foldl
    (fun acc p =>
      let q := GamepadData.new p.1 p.2
      (acc.1 ++ [q.1], acc.2 ++ q.2))
    ([], [])

/-- The Gilrs value assembled at the end of GilrsBuilder::build. -/
def mk_gilrs (b : GilrsBuilder) (inner : CoreGilrs) : Gilrs :=
  let p := finish_gamepads_creation inner.gamepads
  { innerGamepads := inner.gamepads
    rawEvents := inner.rawEvents
    next_id := 0
    counter := 0
    default_filters := b.default_filters
    events := []
    axis_to_btn_pressed := b.axis_to_btn_pressed
    axis_to_btn_released := b.axis_to_btn_released
    update_state := b.update_state
    gamepads_data := p.1
    messages := p.2 }

/-- Embeds the result of GilrsBuilder::build: Ok, Error::NotImplemented
(which still carries a dummy Gilrs), Error::InvalidAxisToBtn, or
Error::Other. -/
inductive BuildResult where
  | ok (g : Gilrs)
  | notImplemented (g : Gilrs)
  | invalidAxisToBtn
  | other
deriving DecidableEq, Repr

/-- Embeds GilrsBuilder::build of gamepad.rs: the threshold validation runs
first and rejects the whole construction; otherwise the result wraps the
assembled Gilrs according to the platform init outcome. -/
def GilrsBuilder.build (b : GilrsBuilder) (platform : PlatformInitResult) :
    BuildResult :=
  if b.axis_to_btn_pressed ≤ b.axis_to_btn_released ∨ b.axis_to_btn_pressed < 0
      ∨ b.axis_to_btn_pressed > 1 ∨ b.axis_to_btn_released < 0
      ∨ b.axis_to_btn_released > 1 then
    .invalidAxisToBtn
  else
    match platform with
    | .ok inner => .ok (mk_gilrs b inner)
    | .notImplemented inner => .notImplemented (mk_gilrs b inner)
    | .other => .other

/-- Result of the File::write call inside Device::set_ff_state: number of
bytes written, or an I/O error. -/
inductive FfWriteResult where
  | ok (n : Nat)
  | ioError
deriving DecidableEq, Repr

/-- How one call of Device::set_ff_state ends: clean return, a logged
diagnostic with normal return, or a panic of the worker thread. -/
inductive SetFfStateOutcome where
  | ok
  | loggedError
  | panicked
deriving DecidableEq, Repr

/-- Embeds Device::set_ff_state of platform/linux/ff.rs, abstracting the two
hardware interactions as inputs: ioctlRes is the return value of the
ioctl::eviocsff effect upload, writeRes the result of writing the
input_event of size bytes.  On ioctlRes = -1 the source executes
unimplemented!(), which panics; a short successful write hits unreachable!(),
which panics; a write error is logged with error! and the call returns. -/
def Device.set_ff_state (ioctlRes : Int) (writeRes : FfWriteResult)
    (size : Nat) : SetFfStateOutcome :=
  if ioctlRes = -1 then
    .panicked
  else
    match writeRes with
    | .ok s => if s = size then .ok else .panicked
    | .ioError => .loggedError

/-- Outcome of a cached-state query that may panic (the assert_ne in
GamepadData::is_pressed and GamepadData::value). -/
inductive Queried (α : Type) where
  | ok (a : α)
  | panicked
deriving DecidableEq, Repr

/-- Modelled from the spec: Button::to_nec of the ev module (not under src),
the default native Code of each logical button; Unknown has none. -/
def Button.to_nec : Button → Option Code
  | .south => some ⟨1⟩
  | .east => some ⟨2⟩
  | .north => some ⟨3⟩
  | .west => some ⟨4⟩
  | .c => some ⟨5⟩
  | .z => some ⟨6⟩
  | .leftTrigger => some ⟨7⟩
  | .leftTrigger2 => some ⟨8⟩
  | .rightTrigger => some ⟨9⟩
  | .rightTrigger2 => some ⟨10⟩
  | .select => some ⟨11⟩
  | .start => some ⟨12⟩
  | .mode => some ⟨13⟩
  | .leftThumb => some ⟨14⟩
  | .rightThumb => some ⟨15⟩
  | .dpadUp => some ⟨16⟩
  | .dpadDown => some ⟨17⟩
  | .dpadLeft => some ⟨18⟩
  | .dpadRight => some ⟨19⟩
  | .unknown => none

/-- Embeds GamepadData::is_pressed of gamepad.rs: asserts the button is not
Unknown (panicking otherwise), then reads the cached state through the
mapping, falling back to the default native code, and to false. -/
def GamepadData.is_pressed (d : GamepadData) (btn : Button) : Queried Bool :=
  if btn = Button.unknown then .panicked
  else
    .ok ((((d.button_code btn).orElse (fun _ => btn.to_nec)).map
      (fun nec => d.state.is_pressed nec)).getD false)

/-- Embeds GamepadData::value of gamepad.rs: asserts the axis is not Unknown
(panicking otherwise), then reads the cached state through the mapping,
falling back to 0.0. -/
def GamepadData.value (d : GamepadData) (axis : Axis) : Queried ℚ :=
  if axis = Axis.unknown then .panicked
  else
    .ok (((d.axis_code axis).map (fun nec => d.state.value nec)).getD 0)

/-- Embeds GamepadData::button_data of gamepad.rs: a pure lookup through the
mapping with no assert. -/
def GamepadData.button_data (d : GamepadData) (btn : Button) :
    Queried (Option ButtonData) :=
  .ok ((d.button_code btn).bind (fun nec => d.state.button_data nec))

/-- Embeds GamepadData::axis_data of gamepad.rs: a pure lookup through the
mapping with no assert. -/
def GamepadData.axis_data (d : GamepadData) (axis : Axis) :
    Queried (Option AxisData) :=
  .ok ((d.axis_code axis).bind (fun nec => d.state.axis_data nec))

/-- Concrete GamepadData used by counterexamples and witnesses: South mapped
to code 10, LeftStickX mapped to code 20, empty cached state. -/
def gamepad_data_example : GamepadData :=
  ⟨GamepadState.new, ⟨[(⟨10⟩, .btn .south), (⟨20⟩, .axis .leftStickX)]⟩, 0⟩

/-- Concrete backend gamepad matching gamepad_data_example: both codes range
over 0..100, no force feedback. -/
def core_gamepad_example : CoreGamepad :=
  ⟨[(⟨10⟩, ⟨0, 100, 0⟩), (⟨20⟩, ⟨0, 100, 10⟩)], false,
   ⟨[(⟨10⟩, .btn .south), (⟨20⟩, .axis .leftStickX)]⟩⟩

/-- Concrete Gilrs with one gamepad slot, default thresholds, and the given
filter flag, raw queue and internal queue. -/
def gilrs_example (df : Bool) (raws : List RawEvent) (evs : List Event) : Gilrs :=
  { innerGamepads := [core_gamepad_example]
    rawEvents := raws
    next_id := 0
    counter := 0
    default_filters := df
    events := evs
    axis_to_btn_pressed := 3 / 4
    axis_to_btn_released := 13 / 20
    update_state := true
    gamepads_data := [gamepad_data_example]
    messages := [] }

/-- True exactly for ButtonPressed events. -/
def is_press_event (e : Event) : Bool :=
  match e.event with
  | .buttonPressed _ _ => true
  | _ => false

/-- True exactly for ButtonReleased events. -/
def is_release_event (e : Event) : Bool :=
  match e.event with
  | .buttonReleased _ _ => true
  | _ => false

lemma list_set_getElem_self {α : Type} :
    ∀ (l : List α) (i : Nat) (a : α), l[i]? = some a → l.set i a = l := by
  intro l
  induction l with
  | nil => intro i a h; simp at h
  | cons x xs ih =>
    intro i a h
    cases i with
    | zero => simp at h; simp [List.set, h]
    | succ n =>
      simp only [List.getElem?_cons_succ] at h
      simp [List.set, ih n a h]

/-- C3: for every failed hardware write inside set_ff_state the scheduler is
claimed to log and continue, never panicking.  The code violates this for
the ioctl path: on eviocsff returning -1 it executes unimplemented!(), a
panic; only the input_event write error is logged and survived.  This
theorem evaluates the embedding at both failure modes. -/
theorem set_ff_state_hw_failure_behaviour :
    Device.set_ff_state (-1) (FfWriteResult.ok 24) 24 = SetFfStateOutcome.panicked
  ∧ Device.set_ff_state 0 FfWriteResult.ioError 24 = SetFfStateOutcome.loggedError := by
  exact ⟨rfl, rfl⟩

lemma inc_iterate_counter :
    ∀ (n : Nat) (g : Gilrs), g.counter + n ≤ 0x3FFFFFFFFFFFFFFF →
      (Gilrs.inc^[n] g).counter = g.counter + n := by
  intro n
  induction n with
  | zero => intro g _; simp
  | succ n ih =>
    intro g h
    rw [Function.iterate_succ_apply]
    have hne : g.counter ≠ 0x3FFFFFFFFFFFFFFF := by omega
    have hstep : (g.inc).counter = g.counter + 1 := by
      simp [Gilrs.inc, hne]
    rw [ih g.inc (by rw [hstep]; omega), hstep]
    omega

/-- C5: a freshly built Gilrs has counter 0; n calls of inc without
wraparound leave counter() = n; at 0x3FFF_FFFF_FFFF_FFFF the next inc wraps
to 0; reset_counter yields 0 from any value. -/
theorem counter_inc_wrap_reset_spec :
    (∀ (b : GilrsBuilder) (p : PlatformInitResult) (g0 : Gilrs),
        GilrsBuilder.build b p = BuildResult.ok g0 → g0.counter = 0)
  ∧ (∀ (g : Gilrs) (n : Nat), g.counter = 0 → n ≤ 0x3FFFFFFFFFFFFFFF →
        (Gilrs.inc^[n] g).counter = n)
  ∧ (∀ g : Gilrs, g.counter = 0x3FFFFFFFFFFFFFFF → (g.inc).counter = 0)
  ∧ (∀ g : Gilrs, (g.reset_counter).counter = 0) := by
  refine ⟨?_, ?_, ?_, ?_⟩
  · intro b p g0 h
    unfold GilrsBuilder.build at h
    split at h
    · exact absurd h (by simp)
    · cases p with
      | ok inner =>
        simp only [BuildResult.ok.injEq] at h
        rw [← h]
        rfl
      | notImplemented inner => simp at h
      | other => simp at h
  · intro g n h0 hn
    have := inc_iterate_counter n g (by omega)
    rw [this, h0]
    omega
  · intro g h
    simp [Gilrs.inc, h]
  · intro g
    rfl

/-- Witness for counter_inc_wrap_reset_spec at a concrete fresh Gilrs and
n = 3. -/
theorem counter_inc_wrap_reset_spec_witness :
    GilrsBuilder.build GilrsBuilder.new (PlatformInitResult.ok ⟨[], []⟩)
        = BuildResult.ok (mk_gilrs GilrsBuilder.new ⟨[], []⟩)
  ∧ (gilrs_example true [] []).counter = 0
  ∧ (Gilrs.inc^[3] (gilrs_example true [] [])).counter = 3 := by
  refine ⟨?_, rfl, ?_⟩
  · unfold GilrsBuilder.build
    rw [if_neg]
    norm_num [GilrsBuilder.new]
  · exact counter_inc_wrap_reset_spec.2.1 (gilrs_example true [] []) 3 rfl (by norm_num)

lemma invalid_threshold_cond_iff (p r : ℚ) :
    (p ≤ r ∨ p < 0 ∨ p > 1 ∨ r < 0 ∨ r > 1) ↔
      ¬(p > r ∧ 0 ≤ p ∧ p ≤ 1 ∧ 0 ≤ r ∧ r ≤ 1) := by
  constructor
  · rintro (h | h | h | h | h) ⟨h1, h2, h3, h4, h5⟩ <;> linarith
  · intro h
    by_cases c1 : p ≤ r
    · exact Or.inl c1
    by_cases c2 : p < 0
    · exact Or.inr (Or.inl c2)
    by_cases c3 : p > 1
    · exact Or.inr (Or.inr (Or.inl c3))
    by_cases c4 : r < 0
    · exact Or.inr (Or.inr (Or.inr (Or.inl c4)))
    refine Or.inr (Or.inr (Or.inr (Or.inr ?_)))
    by_contra c5
    exact h ⟨by linarith [not_le.mp c1], by linarith [not_lt.mp c2],
      by linarith [not_lt.mp c3], by linarith [not_lt.mp c4], by linarith [not_lt.mp c5]⟩

/-- C6: build returns Error::InvalidAxisToBtn exactly when the configured
thresholds violate pressed > released or leave [0,1]; the validation runs
before anything else and no Gilrs value accompanies that error. -/
theorem build_rejects_invalid_axis_to_btn (b : GilrsBuilder)
    (p : PlatformInitResult) :
    (GilrsBuilder.build b p = BuildResult.invalidAxisToBtn ↔
      ¬(b.axis_to_btn_pressed > b.axis_to_btn_released
        ∧ 0 ≤ b.axis_to_btn_pressed ∧ b.axis_to_btn_pressed ≤ 1
        ∧ 0 ≤ b.axis_to_btn_released ∧ b.axis_to_btn_released ≤ 1))
  ∧ (∀ g : Gilrs, GilrsBuilder.build b p = BuildResult.invalidAxisToBtn →
      GilrsBuilder.build b p ≠ BuildResult.ok g
      ∧ GilrsBuilder.build b p ≠ BuildResult.notImplemented g) := by
  constructor
  · rw [← invalid_threshold_cond_iff]
    unfold GilrsBuilder.build
    split
    case isTrue hc => simpa using hc
    case isFalse hc =>
      cases p <;> simpa using hc
  · intro g h
    rw [h]
    exact ⟨by simp, by simp⟩

/-- Witness for build_rejects_invalid_axis_to_btn: thresholds 0.5/0.75
(pressed below released) are rejected. -/
theorem build_rejects_invalid_axis_to_btn_witness :
    GilrsBuilder.build (GilrsBuilder.set_axis_to_btn GilrsBuilder.new (1/2) (3/4))
        PlatformInitResult.other = BuildResult.invalidAxisToBtn :=
  (build_rejects_invalid_axis_to_btn _ _).1.mpr
    (by
      rintro ⟨h1, -⟩
      norm_num [GilrsBuilder.new, GilrsBuilder.set_axis_to_btn] at h1)

lemma clamp_mem (v lo hi : ℚ) (h : lo ≤ hi) : lo ≤ clamp v lo hi ∧ clamp v lo hi ≤ hi := by
  unfold clamp
  split
  · exact ⟨le_refl _, h⟩
  · split
    · exact ⟨h, le_refl _⟩
    · constructor <;> linarith [not_lt.mp (by assumption : ¬ v < lo)]

lemma clamp_eq_self (v lo hi : ℚ) (h1 : lo ≤ v) (h2 : v ≤ hi) : clamp v lo hi = v := by
  unfold clamp
  rw [if_neg (by linarith), if_neg (by linarith)]

/-- C7: with min < max, axis_value is the clamped linear map of [min,max]
onto [-1,1] (stated before the stick-Y sign flip, i.e. for axes the flip
does not touch), hitting -1 at min and 1 at max and bounded for every raw
value; btn_value is the clamped linear map onto [0,1] hitting 0 at min and
1 at max. -/
theorem axis_btn_value_normalization (info : AxisInfo) (axis : Axis)
    (hrange : info.min < info.max)
    (hax : axis ≠ Axis.leftStickY ∧ axis ≠ Axis.rightStickY) :
    (∀ v : Int, -1 ≤ axis_value info v axis ∧ axis_value info v axis ≤ 1)
  ∧ (∀ v : Int, info.min ≤ v → v ≤ info.max →
      axis_value info v axis
        = ((v - info.min : Int) : ℚ) / ((info.max - info.min : Int) : ℚ) * 2 - 1)
  ∧ axis_value info info.min axis = -1
  ∧ axis_value info info.max axis = 1
  ∧ (∀ v : Int, 0 ≤ btn_value info v ∧ btn_value info v ≤ 1)
  ∧ (∀ v : Int, info.min ≤ v → v ≤ info.max →
      btn_value info v = ((v - info.min : Int) : ℚ) / ((info.max - info.min : Int) : ℚ))
  ∧ btn_value info info.min = 0
  ∧ btn_value info info.max = 1 := by
  have hr : (0 : ℚ) < ((info.max - info.min : Int) : ℚ) := by
    have : (0 : Int) < info.max - info.min := by omega
    exact_mod_cast this
  have hfrac : ∀ v : Int, info.min ≤ v → v ≤ info.max →
      0 ≤ ((v - info.min : Int) : ℚ) / ((info.max - info.min : Int) : ℚ)
      ∧ ((v - info.min : Int) : ℚ) / ((info.max - info.min : Int) : ℚ) ≤ 1 := by
    intro v h1 h2
    constructor
    · apply div_nonneg _ (le_of_lt hr)
      have : (0 : Int) ≤ v - info.min := by omega
      exact_mod_cast this
    · rw [div_le_one hr]
      have : (v - info.min : Int) ≤ (info.max - info.min : Int) := by omega
      exact_mod_cast this
  have hnoflip : ∀ w : ℚ,
      (if IS_Y_AXIS_REVERSED = true ∧ (axis = Axis.leftStickY ∨ axis = Axis.rightStickY)
       then -w else w) = w := by
    intro w
    rw [if_neg]
    rintro ⟨-, h | h⟩
    · exact hax.1 h
    · exact hax.2 h
  have haffine : ∀ v : Int, info.min ≤ v → v ≤ info.max →
      axis_value info v axis
        = ((v - info.min : Int) : ℚ) / ((info.max - info.min : Int) : ℚ) * 2 - 1 := by
    intro v h1 h2
    unfold axis_value
    dsimp only
    rw [hnoflip]
    apply clamp_eq_self
    · have := (hfrac v h1 h2).1
      linarith
    · have := (hfrac v h1 h2).2
      linarith
  have hbtn_affine : ∀ v : Int, info.min ≤ v → v ≤ info.max →
      btn_value info v = ((v - info.min : Int) : ℚ) / ((info.max - info.min : Int) : ℚ) := by
    intro v h1 h2
    unfold btn_value
    dsimp only
    exact clamp_eq_self _ _ _ (hfrac v h1 h2).1 (hfrac v h1 h2).2
  refine ⟨?_, haffine, ?_, ?_, ?_, hbtn_affine, ?_, ?_⟩
  · intro v
    unfold axis_value
    dsimp only
    exact clamp_mem _ _ _ (by norm_num)
  · rw [haffine info.min (le_refl _) (le_of_lt hrange)]
    simp
  · rw [haffine info.max (le_of_lt hrange) (le_refl _)]
    rw [div_self (ne_of_gt hr)]
    norm_num
  · intro v
    unfold btn_value
    dsimp only
    exact clamp_mem _ _ _ (by norm_num)
  · rw [hbtn_affine info.min (le_refl _) (le_of_lt hrange)]
    simp
  · rw [hbtn_affine info.max (le_of_lt hrange) (le_refl _)]
    exact div_self (ne_of_gt hr)

/-- Witness for axis_btn_value_normalization on the 0..100 range at both
endpoints. -/
theorem axis_btn_value_normalization_witness :
    (0 : Int) < 100
  ∧ axis_value ⟨0, 100, 0⟩ 0 Axis.leftStickX = -1
  ∧ axis_value ⟨0, 100, 0⟩ 100 Axis.leftStickX = 1
  ∧ btn_value ⟨0, 100, 0⟩ 100 = 1 := by
  have h := axis_btn_value_normalization ⟨0, 100, 0⟩ Axis.leftStickX (by norm_num)
    ⟨by simp, by simp⟩
  exact ⟨by norm_num, h.2.2.1, h.2.2.2.1, h.2.2.2.2.2.2.2⟩

/-- C8 counterexample: the claim says button_data and axis_data panic on
Unknown; evaluated on a concrete gamepad they return cleanly with None. -/
theorem unknown_data_query_no_panic_counterexample :
    GamepadData.button_data gamepad_data_example Button.unknown = Queried.ok none
  ∧ GamepadData.axis_data gamepad_data_example Axis.unknown = Queried.ok none := by
  exact ⟨rfl, rfl⟩

/-- C8 amended: of the four cached-state reads only is_pressed and value
assert on Unknown and panic; button_data and axis_data never panic and
simply answer through the mapping (None when the element is unmapped). -/
theorem unknown_query_panic_amended (d : GamepadData) :
    GamepadData.is_pressed d Button.unknown = Queried.panicked
  ∧ GamepadData.value d Axis.unknown = Queried.panicked
  ∧ (∀ b : Button, GamepadData.button_data d b ≠ Queried.panicked)
  ∧ (∀ a : Axis, GamepadData.axis_data d a ≠ Queried.panicked) := by
  refine ⟨rfl, rfl, ?_, ?_⟩
  · intro b
    simp [GamepadData.button_data]
  · intro a
    simp [GamepadData.axis_data]

lemma next_ff_id_eq (g : Gilrs) :
    Gilrs.next_ff_id g =
      if g.next_id + 1 ≤ USIZE_MAX then some (g.next_id, { g with next_id := g.next_id + 1 })
      else none := by
  by_cases h : g.next_id + 1 ≤ USIZE_MAX <;>
    simp [Gilrs.next_ff_id, checked_add_one, h]

lemma next_ff_id_run_eq :
    ∀ (n : Nat) (g : Gilrs) (ids : List Nat) (g2 : Gilrs),
      Gilrs.next_ff_id_run g n = some (ids, g2) →
      ids = List.range' g.next_id n ∧ g2.next_id = g.next_id + n := by
  intro n
  induction n with
  | zero =>
    intro g ids g2 h
    simp [Gilrs.next_ff_id_run] at h
    simp [← h.1, ← h.2, List.range']
  | succ n ih =>
    intro g ids g2 h
    rw [Gilrs.next_ff_id_run, next_ff_id_eq] at h
    by_cases hb : g.next_id + 1 ≤ USIZE_MAX
    · rw [if_pos hb] at h
      simp only at h
      cases hrun : Gilrs.next_ff_id_run { g with next_id := g.next_id + 1 } n with
      | none => rw [hrun] at h; simp at h
      | some p =>
        rw [hrun] at h
        obtain ⟨ids2, g3⟩ := p
        simp only [Option.some.injEq, Prod.mk.injEq] at h
        obtain ⟨hids, hg2⟩ := h
        have := ih _ _ _ hrun
        subst hg2
        constructor
        · rw [← hids, this.1, List.range'_succ]
        · rw [this.2]
          show g.next_id + 1 + n = g.next_id + (n + 1)
          omega
    · rw [if_neg hb] at h
      simp at h

/-- C9: next_ff_id is a strictly monotonic id generator: every successful
call returns the current next_id and advances it by one, so across any run
the returned ids strictly increase and are never reused; when the increment
would overflow usize the call panics (modelled as none) instead of wrapping
or handing out a duplicate. -/
theorem next_ff_id_monotonic_no_reuse (g : Gilrs) :
    (∀ (i : Nat) (g2 : Gilrs), Gilrs.next_ff_id g = some (i, g2) →
        i = g.next_id ∧ g2.next_id = g.next_id + 1)
  ∧ (∀ (n : Nat) (ids : List Nat) (g2 : Gilrs),
        Gilrs.next_ff_id_run g n = some (ids, g2) →
        ids.Pairwise (fun a b => a < b))
  ∧ (g.next_id = USIZE_MAX → Gilrs.next_ff_id g = none) := by
  refine ⟨?_, ?_, ?_⟩
  · intro i g2 h
    rw [next_ff_id_eq] at h
    by_cases hb : g.next_id + 1 ≤ USIZE_MAX
    · rw [if_pos hb] at h
      simp only [Option.some.injEq, Prod.mk.injEq] at h
      exact ⟨h.1.symm, by rw [← h.2]⟩
    · rw [if_neg hb] at h
      simp at h
  · intro n ids g2 h
    rw [(next_ff_id_run_eq n g ids g2 h).1]
    exact List.pairwise_lt_range' _ _
  · intro h
    rw [next_ff_id_eq, if_neg (by omega)]

/-- Witness for next_ff_id_monotonic_no_reuse: three calls on a fresh
pipeline hand out 0, 1, 2, which strictly increase; at next_id = usize::MAX
the call panics. -/
theorem next_ff_id_monotonic_no_reuse_witness :
    Gilrs.next_ff_id_run (gilrs_example true [] []) 3
        = some ([0, 1, 2], { gilrs_example true [] [] with next_id := 3 })
  ∧ List.Pairwise (fun a b => a < b) [0, 1, 2]
  ∧ Gilrs.next_ff_id { gilrs_example true [] [] with next_id := USIZE_MAX } = none := by
  refine ⟨?_, ?_, ?_⟩
  · rfl
  · exact (next_ff_id_monotonic_no_reuse (gilrs_example true [] [])).2.1 3 [0, 1, 2]
      { gilrs_example true [] [] with next_id := 3 } (by rfl)
  · exact (next_ff_id_monotonic_no_reuse
      { gilrs_example true [] [] with next_id := USIZE_MAX }).2.2 rfl

/-- C10: update is a no-op on the whole Gilrs when the event id has no
gamepad data slot, and Connected, Disconnected and Dropped events never
change any cached state (nor any other field) regardless of id. -/
theorem update_missing_slot_and_lifecycle_noop (g : Gilrs) (ev : Event) :
    (g.gamepads_data[ev.id]? = none → g.update ev = g)
  ∧ (ev.event = EventType.connected ∨ ev.event = EventType.disconnected
      ∨ ev.event = EventType.dropped → g.update ev = g) := by
  constructor
  · intro h
    unfold Gilrs.update
    rw [h]
  · intro h
    unfold Gilrs.update
    cases hd : g.gamepads_data[ev.id]? with
    | none => rfl
    | some data =>
      have hset : g.gamepads_data.set ev.id data = g.gamepads_data :=
        list_set_getElem_self _ _ _ hd
      rcases h with h | h | h <;> rw [h] <;>
        simp [hset]

/-- Witness for update_missing_slot_and_lifecycle_noop: an event for the
absent slot 5 and a Connected event for slot 0 both leave the concrete
pipeline untouched. -/
theorem update_missing_slot_and_lifecycle_noop_witness :
    (gilrs_example true [] []).gamepads_data[(5 : Nat)]? = none
  ∧ Gilrs.update (gilrs_example true [] []) ⟨5, 0, .buttonPressed .south ⟨10⟩⟩
      = gilrs_example true [] []
  ∧ Gilrs.update (gilrs_example true [] []) ⟨0, 0, .connected⟩
      = gilrs_example true [] [] := by
  refine ⟨rfl, ?_, ?_⟩
  · exact (update_missing_slot_and_lifecycle_noop (gilrs_example true [] [])
      ⟨5, 0, .buttonPressed .south ⟨10⟩⟩).1 rfl
  · exact (update_missing_slot_and_lifecycle_noop (gilrs_example true [] [])
      ⟨0, 0, .connected⟩).2 (Or.inl rfl)

/-- C1: a raw AxisValueChanged on a Code mapped to a Button goes through
hysteresis with the configured thresholds: value at or above
axis_to_btn_pressed while not cached as pressed yields ButtonPressed with
the ButtonChanged queued behind it; value at or below axis_to_btn_released
while cached as pressed yields ButtonReleased with the ButtonChanged queued
behind it; otherwise only ButtonChanged is returned; and no single sample
ever generates both a press and a release. -/
theorem axis_to_button_hysteresis (g : Gilrs) (id t : Nat) (v : Int) (nec : Code)
    (raws : List RawEvent) (gd : GamepadData) (cg : CoreGamepad) (info : AxisInfo)
    (b : Button)
    (hev : g.events = [])
    (hraw : g.rawEvents = ⟨id, .axisValueChanged v nec, t⟩ :: raws)
    (hgd : g.gamepads_data[id]? = some gd)
    (hcg : g.innerGamepads[id]? = some cg)
    (hinfo : alist_get cg.axes nec = some info)
    (hmap : gd.axis_or_btn_name nec = some (.btn b)) :
    (g.axis_to_btn_pressed ≤ btn_value info v ∧ gd.state.is_pressed nec = false →
        g.next_event_priv = some (some ⟨id, t, .buttonPressed b nec⟩,
          { g with rawEvents := raws,
                   events := [⟨id, t, .buttonChanged b (btn_value info v) nec⟩] }))
  ∧ (btn_value info v ≤ g.axis_to_btn_released ∧ gd.state.is_pressed nec = true →
        g.next_event_priv = some (some ⟨id, t, .buttonReleased b nec⟩,
          { g with rawEvents := raws,
                   events := [⟨id, t, .buttonChanged b (btn_value info v) nec⟩] }))
  ∧ (¬(g.axis_to_btn_pressed ≤ btn_value info v ∧ gd.state.is_pressed nec = false) →
      ¬(btn_value info v ≤ g.axis_to_btn_released ∧ gd.state.is_pressed nec = true) →
        g.next_event_priv = some (some ⟨id, t, .buttonChanged b (btn_value info v) nec⟩,
          { g with rawEvents := raws }))
  ∧ (∀ (e : Event) (g2 : Gilrs), g.next_event_priv = some (some e, g2) →
        ¬((e :: g2.events).any is_press_event = true
          ∧ (e :: g2.events).any is_release_event = true)) := by
  obtain ⟨ig, re, ni, cnt, df, evq, thp, thr, us, gpd, msgs⟩ := g
  simp only at hev hraw hgd hcg hinfo hmap
  subst hev hraw
  have hpress : thp ≤ btn_value info v ∧ gd.state.is_pressed nec = false →
      Gilrs.next_event_priv ⟨ig, ⟨id, .axisValueChanged v nec, t⟩ :: raws, ni, cnt, df,
          [], thp, thr, us, gpd, msgs⟩
        = some (some ⟨id, t, .buttonPressed b nec⟩,
            ⟨ig, raws, ni, cnt, df, [⟨id, t, .buttonChanged b (btn_value info v) nec⟩],
             thp, thr, us, gpd, msgs⟩) := by
    intro hc
    simp only [Gilrs.next_event_priv, hgd, hcg, hinfo, hmap]
    rw [if_pos hc]
    simp
  have hrel : btn_value info v ≤ thr ∧ gd.state.is_pressed nec = true →
      Gilrs.next_event_priv ⟨ig, ⟨id, .axisValueChanged v nec, t⟩ :: raws, ni, cnt, df,
          [], thp, thr, us, gpd, msgs⟩
        = some (some ⟨id, t, .buttonReleased b nec⟩,
            ⟨ig, raws, ni, cnt, df, [⟨id, t, .buttonChanged b (btn_value info v) nec⟩],
             thp, thr, us, gpd, msgs⟩) := by
    intro hc
    simp only [Gilrs.next_event_priv, hgd, hcg, hinfo, hmap]
    rw [if_neg (by rintro ⟨-, hx⟩; rw [hc.2] at hx; simp at hx),
        if_pos hc]
    simp
  have hchg : ¬(thp ≤ btn_value info v ∧ gd.state.is_pressed nec = false) →
      ¬(btn_value info v ≤ thr ∧ gd.state.is_pressed nec = true) →
      Gilrs.next_event_priv ⟨ig, ⟨id, .axisValueChanged v nec, t⟩ :: raws, ni, cnt, df,
          [], thp, thr, us, gpd, msgs⟩
        = some (some ⟨id, t, .buttonChanged b (btn_value info v) nec⟩,
            ⟨ig, raws, ni, cnt, df, [], thp, thr, us, gpd, msgs⟩) := by
    intro hc1 hc2
    simp only [Gilrs.next_event_priv, hgd, hcg, hinfo, hmap]
    rw [if_neg hc1, if_neg hc2]
  refine ⟨hpress, hrel, hchg, ?_⟩
  intro e g2 hres
  by_cases c1 : thp ≤ btn_value info v ∧ gd.state.is_pressed nec = false
  · rw [hpress c1] at hres
    simp only [Option.some.injEq, Prod.mk.injEq] at hres
    rw [← hres.1, ← hres.2]
    simp [is_press_event, is_release_event]
  · by_cases c2 : btn_value info v ≤ thr ∧ gd.state.is_pressed nec = true
    · rw [hrel c2] at hres
      simp only [Option.some.injEq, Prod.mk.injEq] at hres
      rw [← hres.1, ← hres.2]
      simp [is_press_event, is_release_event]
    · rw [hchg c1 c2] at hres
      simp only [Option.some.injEq, Prod.mk.injEq] at hres
      rw [← hres.1, ← hres.2]
      simp [is_press_event, is_release_event]

/-- Witness for axis_to_button_hysteresis: raw value 80 in 0..100 gives
button value 0.8, at or above the 0.75 threshold with the button not cached
as pressed, so ButtonPressed is returned with ButtonChanged queued. -/
theorem axis_to_button_hysteresis_witness :
    ((gilrs_example true [⟨0, .axisValueChanged 80 ⟨10⟩, 7⟩] []).axis_to_btn_pressed
        ≤ btn_value ⟨0, 100, 0⟩ 80
      ∧ gamepad_data_example.state.is_pressed ⟨10⟩ = false)
  ∧ Gilrs.next_event_priv (gilrs_example true [⟨0, .axisValueChanged 80 ⟨10⟩, 7⟩] [])
      = some (some ⟨0, 7, .buttonPressed .south ⟨10⟩⟩,
          { gilrs_example true [⟨0, .axisValueChanged 80 ⟨10⟩, 7⟩] [] with
              rawEvents := [],
              events := [⟨0, 7, .buttonChanged .south (btn_value ⟨0, 100, 0⟩ 80) ⟨10⟩⟩] }) := by
  have hc : (gilrs_example true [⟨0, .axisValueChanged 80 ⟨10⟩, 7⟩] []).axis_to_btn_pressed
        ≤ btn_value ⟨0, 100, 0⟩ 80
      ∧ gamepad_data_example.state.is_pressed ⟨10⟩ = false := by
    constructor
    · show (3 / 4 : ℚ) ≤ btn_value ⟨0, 100, 0⟩ 80
      norm_num [btn_value, clamp]
    · rfl
  refine ⟨hc, ?_⟩
  exact (axis_to_button_hysteresis (gilrs_example true [⟨0, .axisValueChanged 80 ⟨10⟩, 7⟩] [])
    0 7 80 ⟨10⟩ [] gamepad_data_example core_gamepad_example ⟨0, 100, 0⟩ .south
    rfl rfl rfl rfl rfl rfl).1 hc

/-- C2: a raw ButtonPressed/ButtonReleased whose Code maps to a Button is
returned as ButtonPressed/Released with ButtonChanged(1.0|0.0) queued
behind it; mapped to an Axis it becomes a single AxisChanged(1.0|0.0) with
nothing queued; unmapped it becomes the Unknown button variants with the
queued ButtonChanged; and the internal queue is drained FIFO before any raw
event is translated. -/
theorem raw_button_translation (g : Gilrs) (id t : Nat) (nec : Code)
    (raws : List RawEvent) (gd : GamepadData)
    (hev : g.events = [])
    (hgd : g.gamepads_data[id]? = some gd) :
    (∀ b : Button, g.rawEvents = ⟨id, .buttonPressed nec, t⟩ :: raws →
        gd.axis_or_btn_name nec = some (.btn b) →
        g.next_event_priv = some (some ⟨id, t, .buttonPressed b nec⟩,
          { g with rawEvents := raws, events := [⟨id, t, .buttonChanged b 1 nec⟩] }))
  ∧ (∀ a : Axis, g.rawEvents = ⟨id, .buttonPressed nec, t⟩ :: raws →
        gd.axis_or_btn_name nec = some (.axis a) →
        g.next_event_priv = some (some ⟨id, t, .axisChanged a 1 nec⟩,
          { g with rawEvents := raws }))
  ∧ (g.rawEvents = ⟨id, .buttonPressed nec, t⟩ :: raws →
        gd.axis_or_btn_name nec = none →
        g.next_event_priv = some (some ⟨id, t, .buttonPressed .unknown nec⟩,
          { g with rawEvents := raws,
                   events := [⟨id, t, .buttonChanged .unknown 1 nec⟩] }))
  ∧ (∀ b : Button, g.rawEvents = ⟨id, .buttonReleased nec, t⟩ :: raws →
        gd.axis_or_btn_name nec = some (.btn b) →
        g.next_event_priv = some (some ⟨id, t, .buttonReleased b nec⟩,
          { g with rawEvents := raws, events := [⟨id, t, .buttonChanged b 0 nec⟩] }))
  ∧ (∀ a : Axis, g.rawEvents = ⟨id, .buttonReleased nec, t⟩ :: raws →
        gd.axis_or_btn_name nec = some (.axis a) →
        g.next_event_priv = some (some ⟨id, t, .axisChanged a 0 nec⟩,
          { g with rawEvents := raws }))
  ∧ (g.rawEvents = ⟨id, .buttonReleased nec, t⟩ :: raws →
        gd.axis_or_btn_name nec = none →
        g.next_event_priv = some (some ⟨id, t, .buttonReleased .unknown nec⟩,
          { g with rawEvents := raws,
                   events := [⟨id, t, .buttonChanged .unknown 0 nec⟩] }))
  ∧ (∀ (gq : Gilrs) (e : Event) (rest : List Event), gq.events = e :: rest →
        gq.next_event_priv = some (some e, { gq with events := rest })) := by
  obtain ⟨ig, re, ni, cnt, df, evq, thp, thr, us, gpd, msgs⟩ := g
  simp only at hev hgd
  subst hev
  refine ⟨?_, ?_, ?_, ?_, ?_, ?_, ?_⟩
  · intro b hraw hmap
    simp only at hraw
    subst hraw
    simp [Gilrs.next_event_priv, hgd, hmap]
  · intro a hraw hmap
    simp only at hraw
    subst hraw
    simp [Gilrs.next_event_priv, hgd, hmap]
  · intro hraw hmap
    simp only at hraw
    subst hraw
    simp [Gilrs.next_event_priv, hgd, hmap]
  · intro b hraw hmap
    simp only at hraw
    subst hraw
    simp [Gilrs.next_event_priv, hgd, hmap]
  · intro a hraw hmap
    simp only at hraw
    subst hraw
    simp [Gilrs.next_event_priv, hgd, hmap]
  · intro hraw hmap
    simp only at hraw
    subst hraw
    simp [Gilrs.next_event_priv, hgd, hmap]
  · intro gq e rest h
    obtain ⟨ig2, re2, ni2, cnt2, df2, evq2, thp2, thr2, us2, gpd2, msgs2⟩ := gq
    simp only at h
    subst h
    rfl

/-- Witness for raw_button_translation: a raw ButtonPressed on code 10
(mapped to South) yields ButtonPressed(South) with ButtonChanged(South, 1.0)
queued, and a nonempty queue is drained first. -/
theorem raw_button_translation_witness :
    gamepad_data_example.axis_or_btn_name ⟨10⟩ = some (.btn .south)
  ∧ Gilrs.next_event_priv (gilrs_example true [⟨0, .buttonPressed ⟨10⟩, 3⟩] [])
      = some (some ⟨0, 3, .buttonPressed .south ⟨10⟩⟩,
          { gilrs_example true [⟨0, .buttonPressed ⟨10⟩, 3⟩] [] with
              rawEvents := [],
              events := [⟨0, 3, .buttonChanged .south 1 ⟨10⟩⟩] })
  ∧ Gilrs.next_event_priv (gilrs_example true [] [⟨0, 3, .buttonChanged .south 1 ⟨10⟩⟩])
      = some (some ⟨0, 3, .buttonChanged .south 1 ⟨10⟩⟩,
          { gilrs_example true [] [⟨0, 3, .buttonChanged .south 1 ⟨10⟩⟩] with
              events := [] }) := by
  have h := raw_button_translation (gilrs_example true [⟨0, .buttonPressed ⟨10⟩, 3⟩] [])
    0 3 ⟨10⟩ [] gamepad_data_example rfl rfl
  exact ⟨rfl, h.1 .south rfl rfl,
    h.2.2.2.2.2.2 (gilrs_example true [] [⟨0, 3, .buttonChanged .south 1 ⟨10⟩⟩])
      ⟨0, 3, .buttonChanged .south 1 ⟨10⟩⟩ [] rfl⟩

/-- C4 counterexample: with default filters disabled, a Dropped event placed
in the queue by insert_event is returned verbatim by next_event, so the
claim that Dropped is never surfaced under any setting of
with_default_filters is false. -/
theorem dropped_event_surfaced_counterexample :
    Gilrs.next_event ((gilrs_example false [] []).insert_event ⟨0, 0, .dropped⟩) [] 1
      = some (some ⟨0, 0, .dropped⟩, gilrs_example false [] []) := by
  rfl

lemma next_event_loop_not_dropped :
    ∀ (fuel : Nat) (fs : List FilterFn) (g : Gilrs) (e : Event) (g2 : Gilrs),
      Gilrs.next_event_loop fs fuel g = some (some e, g2) → e.is_dropped = false := by
  intro fuel
  induction fuel with
  | zero =>
    intro fs g e g2 h
    simp [Gilrs.next_event_loop] at h
  | succ n ih =>
    intro fs g e g2 h
    rw [Gilrs.next_event_loop] at h
    cases hf : g.next_event_filtered fs with
    | none => rw [hf] at h; simp at h
    | some p =>
      rw [hf] at h
      obtain ⟨ev, g3⟩ := p
      cases ev with
      | none =>
        simp at h
      | some e2 =>
        simp only at h
        by_cases hd : e2.is_dropped
        · rw [if_pos hd] at h
          exact ih fs g3 e g2 h
        · rw [if_neg hd] at h
          simp only [Option.some.injEq, Prod.mk.injEq] at h
          rw [← h.1]
          simpa using hd

/-- C4 amended: whenever default filters are enabled, next_event never
returns an event of kind Dropped, whatever the filter functions do and
whatever was inserted; (with default filters disabled a Dropped event can
surface, see the counterexample). -/
theorem next_event_no_dropped_with_default_filters (g : Gilrs) (fs : List FilterFn)
    (fuel : Nat) (e : Event) (g2 : Gilrs)
    (hdf : g.default_filters = true)
    (h : g.next_event fs fuel = some (some e, g2)) :
    e.event ≠ EventType.dropped := by
  unfold Gilrs.next_event at h
  rw [hdf] at h
  simp only [if_true] at h
  cases hr : Gilrs.next_event_loop fs fuel g with
  | none => rw [hr] at h; simp at h
  | some p =>
    rw [hr] at h
    obtain ⟨ev, g3⟩ := p
    cases ev with
    | none => simp at h
    | some e2 =>
      simp only [Option.some.injEq, Prod.mk.injEq] at h
      have hnd := next_event_loop_not_dropped fuel fs g e2 g3 hr
      intro hcon
      rw [h.1] at hnd
      simp [Event.is_dropped, hcon] at hnd

/-- Witness for next_event_no_dropped_with_default_filters at a concrete
queue holding one ButtonChanged event. -/
theorem next_event_no_dropped_witness :
    (gilrs_example true [] [⟨0, 5, .buttonChanged .south 1 ⟨10⟩⟩]).default_filters = true
  ∧ (⟨0, 5, .buttonChanged .south 1 ⟨10⟩⟩ : Event).event ≠ EventType.dropped := by
  constructor
  · rfl
  · exact next_event_no_dropped_with_default_filters
      (gilrs_example true [] [⟨0, 5, .buttonChanged .south 1 ⟨10⟩⟩]) [] 1
      ⟨0, 5, .buttonChanged .south 1 ⟨10⟩⟩ _ rfl rfl
